import Mathlib

set_option linter.unusedVariables false

/- Shallow embedding of the WeathWise ml-services quantitative finance engine:
   `services/portfolio_optimizer.py`, `services/sentiment_analyzer.py` and
   `routes/portfolio_analysis.py`.

   Price and return data are modelled exactly over ℚ (a return matrix is a
   list of date rows, each row a list of per-symbol returns).  Square roots
   and the derived volatility / Sharpe statistics live in ℝ.  External
   collaborators (the scipy SLSQP solver, numpy's seeded random generator,
   sklearn's scaler/classifier fits) are modelled as explicit inputs or
   abstract outcome values; everything the repository's own code does with
   them is embedded faithfully. -/

namespace WeathWise

/-- Column `j` of a row `r`, defaulting to `0` (rows are date-aligned and
    rectangular in the pandas frame). -/
def entry (r : List ℚ) (j : ℕ) : ℚ := r.getD j 0

/-- Mean of column `j` of a return matrix, `returns.mean()` for one column
    (`sum / length`; ℚ division by zero yields 0 for an empty matrix). -/
def colMean (R : List (List ℚ)) (j : ℕ) : ℚ :=
  (R.map (fun r => entry r j)).sum / R.length

/-- Sample covariance of columns `j` and `k`, `returns.cov()` entry
    (pandas default `ddof = 1`). -/
def covEntry (R : List (List ℚ)) (j k : ℕ) : ℚ :=
  (R.map (fun r => (entry r j - colMean R j) * (entry r k - colMean R k))).sum
    / ((R.length : ℚ) - 1)

/-- Daily simple returns from a price frame: `prices.pct_change().dropna()`.
    Row `t` of the result is `prices[t+1]/prices[t] - 1` columnwise; the
    all-NaN first row of `pct_change` is dropped. -/
def calculateReturns (prices : List (List ℚ)) : List (List ℚ) :=
  (prices.zip prices.tail).map (fun p => List.zipWith (fun a b => b / a - 1) p.1 p.2)

/-- Annualized portfolio return `np.sum(returns.mean() * weights) * 252`. -/
def annualReturnQ (w : List ℚ) (R : List (List ℚ)) : ℚ :=
  ((List.range w.length).map (fun j => colMean R j * w.getD j 0)).sum * 252

/-- Annualized portfolio variance
    `np.dot(weights.T, np.dot(returns.cov() * 252, weights))`. -/
def portVarQ (w : List ℚ) (R : List (List ℚ)) : ℚ :=
  ((List.range w.length).map (fun j =>
    ((List.range w.length).map (fun k =>
      w.getD j 0 * (covEntry R j k * 252) * w.getD k 0)).sum)).sum

/-- Result record of `PortfolioOptimizer.calculate_portfolio_stats`. -/
structure PortfolioStats where
  ret : ℝ
  volatility : ℝ
  sharpeRatio : ℝ

/-- The body of `PortfolioOptimizer.calculate_portfolio_stats`:
    `annual_return`, `annual_vol = sqrt(wᵀ (252 Σ) w)` and
    `sharpe = (annual_return - risk_free_rate) / annual_vol if annual_vol > 0
    else 0.0`. -/
noncomputable def calculatePortfolioStats (riskFreeRate : ℚ) (w : List ℚ)
    (returns : List (List ℚ)) : PortfolioStats :=
  let annualReturn : ℝ := (annualReturnQ w returns : ℝ)
  let annualVol : ℝ := Real.sqrt ((portVarQ w returns : ℚ) : ℝ)
  { ret := annualReturn
    volatility := annualVol
    sharpeRatio :=
      if 0 < annualVol then (annualReturn - (riskFreeRate : ℝ)) / annualVol else 0 }

/-- Default `risk_free_rate` of `PortfolioOptimizer.__init__`. -/
def defaultRiskFreeRate : ℚ := 3 / 100

/-- Risk multiplier lookup in `PortfolioOptimizer.optimize`:
    `{"conservative": 0.5, "moderate": 1.0, "aggressive": 1.5}.get(rt, 1.0)`. -/
def riskMult (rt : String) : ℚ :=
  if rt = "conservative" then 1 / 2
  else if rt = "moderate" then 1
  else if rt = "aggressive" then 3 / 2
  else 1

/-- The no-target-return objective of `PortfolioOptimizer.optimize`:
    `-stats["sharpe_ratio"] * risk_mult`. -/
noncomputable def objectiveNoTarget (riskFreeRate : ℚ) (rt : String)
    (returns : List (List ℚ)) (w : List ℚ) : ℝ :=
  -(calculatePortfolioStats riskFreeRate w returns).sharpeRatio * (riskMult rt : ℝ)

/-- A weight vector is optimal for a risk-tolerance category over a feasible
    set when it minimizes the category's objective there. -/
noncomputable def IsOptimal (riskFreeRate : ℚ) (rt : String)
    (returns : List (List ℚ)) (S : Set (List ℚ)) (w : List ℚ) : Prop :=
  w ∈ S ∧ ∀ w' ∈ S,
    objectiveNoTarget riskFreeRate rt returns w ≤
      objectiveNoTarget riskFreeRate rt returns w'

/- The optimize operation.  `scipy.optimize.minimize` is external; its
   outcome (`result.success`, `result.x`, `result.message`) is a
   `SolverResult` input of the embedding.  Everything the repository does
   around it — the data-unavailable rejection, the failure rejection, the
   result assembly and the route-level fallback — is embedded from
   `PortfolioOptimizer.optimize` and `routes/portfolio_analysis.py`. -/

/-- Outcome of the `scipy.optimize.minimize` call (`SLSQP`). -/
structure SolverResult where
  success : Bool
  x : List ℚ
  message : String

/-- Per-asset statistics entry of `PortfolioOptimizer.optimize`. -/
structure AssetStat where
  weight : ℚ
  expectedReturn : ℚ
  volatility : ℝ

/-- Risk metrics record of `PortfolioOptimizer._risk_metrics`. -/
structure RiskMetrics where
  var95 : ℝ
  maxDrawdown : ℚ
  downsideDeviation : ℝ

/-- The dictionary returned by `PortfolioOptimizer.optimize`. -/
structure OptimizationResult where
  symbols : List String
  weights : List (String × ℚ)
  portfolioStats : PortfolioStats
  assetStats : List (String × AssetStat)
  riskMetrics : RiskMetrics
  generatedAt : String

/-- Python `dict` insertion: an existing key keeps its position and gets the
    new value, a new key is appended. -/
def pyDictInsert (m : List (String × ℚ)) (k : String) (v : ℚ) : List (String × ℚ) :=
  if k ∈ m.map Prod.fst then m.map (fun p => if p.1 = k then (p.1, v) else p)
  else m ++ [(k, v)]

/-- Python `dict(pairs)` / dict comprehension over a pair list. -/
def pyDict (pairs : List (String × ℚ)) : List (String × ℚ) :=
  pairs.foldl (fun m p => pyDictInsert m p.1 p.2) []

/-- Weighted daily portfolio return series `(returns * weights).sum(axis=1)`. -/
def portfolioReturnsSeries (w : List ℚ) (R : List (List ℚ)) : List ℚ :=
  R.map (fun r => ((List.range w.length).map (fun j => entry r j * w.getD j 0)).sum)

/-- Linear-interpolation percentile, `np.percentile(xs, q)`: on the
    ascending sort, index `(n-1)·q/100` interpolated between its floor and
    ceiling neighbours. -/
def percentileQ (xs : List ℚ) (q : ℚ) : ℚ :=
  let sorted := xs.insertionSort (· ≤ ·)
  let pos : ℚ := ((sorted.length : ℚ) - 1) * q / 100
  let lo := ⌊pos⌋.toNat
  let hi := ⌈pos⌉.toNat
  sorted.getD lo 0 + (pos - lo) * (sorted.getD hi 0 - sorted.getD lo 0)

/-- Cumulative product `(1 + portfolio_returns).cumprod()`. -/
def cumprod (xs : List ℚ) : List ℚ :=
  (xs.scanl (fun acc x => acc * x) 1).tail

/-- Running maximum with the running value threaded,
    `cumulative.expanding().max()`. -/
def runningMaxAux (cur : ℚ) : List ℚ → List ℚ
  | [] => []
  | x :: xs => max cur x :: runningMaxAux (max cur x) xs

/-- Running maximum of a series, `cumulative.expanding().max()`. -/
def runningMax : List ℚ → List ℚ
  | [] => []
  | x :: xs => x :: runningMaxAux x xs

/-- Minimum of a drawdown series (`drawdown.min()`); the pandas NaN of an
    empty series is modelled as 0, and 0 is an upper bound of every
    drawdown series so the fold computes the true minimum otherwise. -/
def minimumD (xs : List ℚ) : ℚ := xs.foldl min 0

/-- The body of `PortfolioOptimizer._risk_metrics` (95% VaR, maximum
    drawdown, downside deviation; `_downside_deviation` with target 0). -/
noncomputable def riskMetricsOf (w : List ℚ) (R : List (List ℚ)) : RiskMetrics :=
  let pr := portfolioReturnsSeries w R
  let cumulative := cumprod (pr.map (fun x => 1 + x))
  let rollingMax := runningMax cumulative
  let drawdown := List.zipWith (fun c m => (c - m) / m) cumulative rollingMax
  let downside := pr.filter (fun x => decide (x < 0))
  { var95 := ((percentileQ pr 5 : ℚ) : ℝ) * Real.sqrt 252
    maxDrawdown := minimumD drawdown
    downsideDeviation :=
      if downside.length = 0 then 0
      else Real.sqrt (((downside.map (fun x => x ^ 2)).sum / downside.length : ℚ) : ℝ) *
        Real.sqrt 252 }

/-- Per-asset statistics loop of `PortfolioOptimizer.optimize`: weight,
    annualized own return `r.mean() * 252`, annualized own volatility
    `r.std() * sqrt(252)` for each symbol's return column. -/
noncomputable def assetStatsOf (symbols : List String) (x : List ℚ)
    (R : List (List ℚ)) : List (String × AssetStat) :=
  (List.range symbols.length).map (fun i =>
    (symbols.getD i "",
      { weight := x.getD i 0
        expectedReturn := colMean R i * 252
        volatility := Real.sqrt ((covEntry R i i : ℚ) : ℝ) * Real.sqrt 252 }))

/-- The body of `PortfolioOptimizer.optimize` after price fetching: reject
    when the price frame is empty, build returns, run the solver (whose
    outcome is the `solver` input; `riskTolerance` and `targetReturn` only
    shape the objective handed to it), reject when it reports failure, and
    otherwise assemble the result dictionary. -/
noncomputable def optimizeM (riskFreeRate : ℚ) (symbols : List String)
    (riskTolerance : String) (targetReturn : Option ℚ) (prices : List (List ℚ))
    (solver : SolverResult) (now : String) : Except String OptimizationResult :=
  if prices.isEmpty then .error "Price data unavailable for symbols"
  else
    let returns := calculateReturns prices
    if solver.success then
      .ok { symbols := symbols
            weights := pyDict (symbols.zip solver.x)
            portfolioStats := calculatePortfolioStats riskFreeRate solver.x returns
            assetStats := assetStatsOf symbols solver.x returns
            riskMetrics := riskMetricsOf solver.x returns
            generatedAt := now }
    else .error ("Optimization failed: " ++ solver.message)

/-- Response value of the `/optimize-portfolio` handler: the optimizer
    result dictionary, extended by the `fallback`/`message` keys the
    fallback branch adds (absent, i.e. `false`/`none`, on the solver path). -/
structure RouteResponse extends OptimizationResult where
  fallback : Bool
  message : Option String

/-- The `optimize_portfolio` route handler after symbol cleaning and
    backend validation (`symbols` is the validated list): fewer than two
    symbols is a 400 validation error; any optimizer exception is caught
    and, since `n ≥ 2` there, converted into the equal-weight fallback
    response with zeroed statistics, `fallback = true` and a message
    wrapping the optimizer error. -/
noncomputable def optimizePortfolioRoute (riskFreeRate : ℚ) (symbols : List String)
    (riskTolerance : String) (targetReturn : Option ℚ) (prices : List (List ℚ))
    (solver : SolverResult) (now : String) : Except (ℕ × String) RouteResponse :=
  if symbols.length < 2 then .error (400, "need at least two valid symbols for optimization")
  else
    match optimizeM riskFreeRate symbols riskTolerance targetReturn prices solver now with
    | .ok r => .ok { toOptimizationResult := r, fallback := false, message := none }
    | .error e =>
      if 2 ≤ symbols.length then
        .ok { symbols := symbols
              weights := pyDict (symbols.map (fun s => (s, 1 / (symbols.length : ℚ))))
              portfolioStats := { ret := 0, volatility := 0, sharpeRatio := 0 }
              assetStats := symbols.map (fun s =>
                (s, { weight := 1 / (symbols.length : ℚ), expectedReturn := 0, volatility := 0 }))
              riskMetrics := { var95 := 0, maxDrawdown := 0, downsideDeviation := 0 }
              generatedAt := now
              fallback := true
              message := some ("Optimizer failed: " ++ e ++ ". Returning equal-weight targets.") }
      else .error (400, "optimization failed: " ++ e)

/-- Concrete response the route produces for symbols `["AAA", "BBB"]` with
    no price data and a failed solver: the equal-weight fallback payload. -/
noncomputable def routeWitnessResponse : RouteResponse :=
  { symbols := ["AAA", "BBB"]
    weights := pyDict ((["AAA", "BBB"] : List String).map
      (fun s => (s, 1 / (((["AAA", "BBB"] : List String).length : ℕ) : ℚ))))
    portfolioStats := { ret := 0, volatility := 0, sharpeRatio := 0 }
    assetStats := (["AAA", "BBB"] : List String).map (fun s =>
      (s, { weight := 1 / (((["AAA", "BBB"] : List String).length : ℕ) : ℚ),
            expectedReturn := 0, volatility := 0 }))
    riskMetrics := { var95 := 0, maxDrawdown := 0, downsideDeviation := 0 }
    generatedAt := "t0"
    fallback := true
    message := some ("Optimizer failed: " ++ "Price data unavailable for symbols" ++
      ". Returning equal-weight targets.") }

/- Efficient frontier sampling, `PortfolioOptimizer.efficient_frontier` and
   the `/efficient-frontier` route.  numpy's global random generator is
   modelled as an explicit state threaded through the call:
   `np.random.seed(42)` replaces the state by a fixed value, and each draw
   advances it deterministically (a linear congruential step standing in
   for the Mersenne Twister; the concrete stream is irrelevant to the
   claims, only its determinism and the seed reset are). -/

/-- Global numpy random-generator state. -/
structure NpRandomState where
  state : ℕ

/-- `np.random.seed(n)`. -/
def npSeed (n : ℕ) : NpRandomState := ⟨n⟩

/-- One uniform draw in `[0, 1)` together with the advanced state. -/
def npNext (g : NpRandomState) : ℚ × NpRandomState :=
  let s := (1103515245 * g.state + 12345) % 2147483648
  ((s : ℚ) / 2147483648, ⟨s⟩)

/-- `np.random.random(n)`: a vector of `n` draws. -/
def npRandomVec : ℕ → NpRandomState → List ℚ × NpRandomState
  | 0, g => ([], g)
  | n + 1, g =>
    let d := npNext g
    let rest := npRandomVec n d.2
    (d.1 :: rest.1, rest.2)

/-- Response of `PortfolioOptimizer.efficient_frontier`: index-aligned
    lists of returns, volatilities, Sharpe ratios and weight vectors. -/
structure FrontierResult where
  returns : List ℝ
  volatilities : List ℝ
  sharpeRatios : List ℝ
  weights : List (List ℚ)

/-- The sampling loop of `efficient_frontier`: each iteration draws a
    random vector, normalizes it to sum 1, and records the portfolio
    statistics and the weights. -/
noncomputable def frontierLoop (riskFreeRate : ℚ) (returns : List (List ℚ))
    (numAssets : ℕ) : ℕ → NpRandomState →
    (List ℝ × List ℝ × List ℝ × List (List ℚ)) × NpRandomState
  | 0, g => (([], [], [], []), g)
  | n + 1, g =>
    let draw := npRandomVec numAssets g
    let w := draw.1.map (fun x => x / draw.1.sum)
    let stats := calculatePortfolioStats riskFreeRate w returns
    let rest := frontierLoop riskFreeRate returns numAssets n draw.2
    ((stats.ret :: rest.1.1, stats.volatility :: rest.1.2.1,
      stats.sharpeRatio :: rest.1.2.2.1, w :: rest.1.2.2.2), rest.2)

/-- The body of `PortfolioOptimizer.efficient_frontier`: reject on an empty
    price frame (before touching the generator), otherwise reseed the
    global generator with 42 and sample `num_portfolios` portfolios. -/
noncomputable def efficientFrontierM (riskFreeRate : ℚ) (symbols : List String)
    (prices : List (List ℚ)) (numPortfolios : ℕ) (g : NpRandomState) :
    Except String FrontierResult × NpRandomState :=
  if prices.isEmpty then (.error "Price data unavailable for symbols", g)
  else
    let loopOut := frontierLoop riskFreeRate (calculateReturns prices)
      symbols.length numPortfolios (npSeed 42)
    (.ok { returns := loopOut.1.1
           volatilities := loopOut.1.2.1
           sharpeRatios := loopOut.1.2.2.1
           weights := loopOut.1.2.2.2 }, loopOut.2)

/-- The successful payload of `efficient_frontier`: the four index-aligned
    lists collected by the sampling loop started from seed 42. -/
noncomputable def frontierPayload (riskFreeRate : ℚ) (symbols : List String)
    (prices : List (List ℚ)) (numPortfolios : ℕ) : FrontierResult :=
  { returns := (frontierLoop riskFreeRate (calculateReturns prices)
      symbols.length numPortfolios (npSeed 42)).1.1
    volatilities := (frontierLoop riskFreeRate (calculateReturns prices)
      symbols.length numPortfolios (npSeed 42)).1.2.1
    sharpeRatios := (frontierLoop riskFreeRate (calculateReturns prices)
      symbols.length numPortfolios (npSeed 42)).1.2.2.1
    weights := (frontierLoop riskFreeRate (calculateReturns prices)
      symbols.length numPortfolios (npSeed 42)).1.2.2.2 }

/-- Python's `x or 100` applied to the optional request count (`None` and
    `0` are falsy and give the default 100). -/
def pyOr100 : Option ℤ → ℤ
  | none => 100
  | some k => if k = 0 then 100 else k

/-- The `get_efficient_frontier` route handler after symbol cleaning:
    empty symbol list is a 400 error; otherwise the sampler runs with
    `min(max(req.num_portfolios or 100, 20), 500)` portfolios and a raised
    error becomes a 400 response. -/
noncomputable def getEfficientFrontierRoute (riskFreeRate : ℚ)
    (symbols : List String) (numPortfolios : Option ℤ) (prices : List (List ℚ))
    (g : NpRandomState) : Except (ℕ × String) FrontierResult :=
  if symbols.isEmpty then .error (400, "symbols required")
  else
    match (efficientFrontierM riskFreeRate symbols prices
        (min (max (pyOr100 numPortfolios) 20) 500).toNat g).1 with
    | .ok out => .ok out
    | .error e => .error (400, e)

/- Sentiment labelling, `sentiment_analyzer._labels_from_close`.  The close
   series is a list of rational close prices indexed by trading day; the
   label series is built like the pandas code: start from an all-unset
   series, then assign through three boolean masks
   (`labels[fwd > pos] = "positive"`, `labels[fwd < neg] = "negative"`,
   `labels[(fwd >= neg) & (fwd <= pos)] = "neutral"`).  A mask is false on
   the last `forward_days` positions, where the shifted close (hence `fwd`)
   is NaN, so those labels stay unset (`none`). -/

/-- Forward `d`-day return at index `i`: `close.shift(-d) / close - 1.0`,
    `none` past the end of the shifted series. -/
def fwdReturn (close : List ℚ) (d i : ℕ) : Option ℚ :=
  if i + d < close.length then some (close.getD (i + d) 0 / close.getD i 0 - 1) else none

/-- Masked assignment `labels[mask] = v` on an option-valued series, with
    the running absolute index threaded through. -/
def applyMask (m : ℕ → Bool) (v : String) : List (Option String) → ℕ → List (Option String)
  | [], _ => []
  | a :: as, i => (if m i then some v else a) :: applyMask m v as (i + 1)

/-- The `fwd > pos` mask of `_labels_from_close` (false where `fwd` is NaN). -/
def maskPositive (close : List ℚ) (i : ℕ) : Bool :=
  match fwdReturn close 5 i with
  | some f => decide (2 / 100 < f)
  | none => false

/-- The `fwd < neg` mask of `_labels_from_close`. -/
def maskNegative (close : List ℚ) (i : ℕ) : Bool :=
  match fwdReturn close 5 i with
  | some f => decide (f < -(2 / 100))
  | none => false

/-- The `(fwd >= neg) & (fwd <= pos)` mask of `_labels_from_close`. -/
def maskNeutral (close : List ℚ) (i : ℕ) : Bool :=
  match fwdReturn close 5 i with
  | some f => decide (-(2 / 100) ≤ f) && decide (f ≤ 2 / 100)
  | none => false

/-- The body of `_labels_from_close` with the default `forward_days = 5`:
    three sequential mask assignments over an initially unset series. -/
def labelsFromClose (close : List ℚ) : List (Option String) :=
  let l0 : List (Option String) := List.replicate close.length none
  let l1 := applyMask (maskPositive close) "positive" l0 0
  let l2 := applyMask (maskNegative close) "negative" l1 0
  applyMask (maskNeutral close) "neutral" l2 0

/- Sentiment classifier training, `MarketSentimentAnalyzer.train_model`.
   The sklearn objects are external: a fitted scaler / classifier is an
   opaque parameter value (ℕ id), and each fallible external step — the
   train/test split, `scaler.fit_transform` (which mutates `self.scaler`
   on success), `scaler.transform(X_test)`, `model.fit` (which mutates
   `self.model`), `accuracy_score` — is an outcome input.  The embedding
   reproduces, in source order, exactly which `self` fields each step has
   mutated when a later step raises: the per-symbol gathering loop catches
   its own exceptions and mutates nothing (its net effect is whether
   `X_parts` is nonempty), `self.is_trained = True` is set right after
   `model.fit` and before the accuracy computation, and `self.last_metrics`
   is assigned last. -/

/-- Training metrics dictionary assigned to `self.last_metrics`. -/
structure TrainMetrics where
  accuracy : ℚ
  featureImportance : List (String × ℚ)
  trainingSamples : ℕ
  testSamples : ℕ
  trainedAt : String
  deriving DecidableEq

/-- The mutable fields of `MarketSentimentAnalyzer`: scaler parameters,
    model parameters (opaque fitted-object ids, `none` when unfitted),
    the trained flag, and the last metrics. -/
structure AnalyzerState where
  scalerParams : Option ℕ
  modelParams : Option ℕ
  isTrained : Bool
  lastMetrics : Option TrainMetrics
  deriving DecidableEq

/-- Shape of a successful `train_test_split` outcome. -/
structure SplitData where
  trainSamples : ℕ
  testSamples : ℕ
  deriving DecidableEq

/-- The body of `train_model` after the per-symbol gathering loop, with
    each external call's outcome supplied: mutations are applied to the
    state exactly where the source applies them to `self`. -/
def trainModel (st : AnalyzerState) (hasParts : Bool)
    (splitOutcome : Except String SplitData)
    (scalerFitOutcome : Except String ℕ)
    (scalerTransformOutcome : Except String Unit)
    (modelFitOutcome : Except String ℕ)
    (accuracyOutcome : Except String ℚ)
    (importance : List (String × ℚ)) (now : String) :
    Except String TrainMetrics × AnalyzerState :=
  if hasParts = false then (.error "No valid training data from provided symbols", st)
  else
    match splitOutcome with
    | .error e => (.error e, st)
    | .ok split =>
      match scalerFitOutcome with
      | .error e => (.error e, st)
      | .ok sp =>
        let st1 := { st with scalerParams := some sp }
        match scalerTransformOutcome with
        | .error e => (.error e, st1)
        | .ok _ =>
          match modelFitOutcome with
          | .error e => (.error e, st1)
          | .ok mp =>
            let st2 := { st1 with modelParams := some mp, isTrained := true }
            match accuracyOutcome with
            | .error e => (.error e, st2)
            | .ok acc =>
              let metrics : TrainMetrics :=
                { accuracy := acc
                  featureImportance := importance
                  trainingSamples := split.trainSamples
                  testSamples := split.testSamples
                  trainedAt := now }
              (.ok metrics, { st2 with lastMetrics := some metrics })

/-- A previously trained analyzer state used as the concrete pre-state. -/
def previouslyTrainedState : AnalyzerState :=
  { scalerParams := some 1
    modelParams := some 1
    isTrained := true
    lastMetrics := some { accuracy := 0, featureImportance := [], trainingSamples := 80,
                          testSamples := 20, trainedAt := "t0" } }

theorem riskMult_pos (rt : String) : 0 < riskMult rt := by
  unfold riskMult
  split_ifs <;> norm_num

theorem objectiveNoTarget_le_iff (riskFreeRate : ℚ) (rt : String)
    (returns : List (List ℚ)) (w w' : List ℚ) :
    objectiveNoTarget riskFreeRate rt returns w ≤
      objectiveNoTarget riskFreeRate rt returns w' ↔
    (calculatePortfolioStats riskFreeRate w' returns).sharpeRatio ≤
      (calculatePortfolioStats riskFreeRate w returns).sharpeRatio := by
  have hc : (0 : ℝ) < (riskMult rt : ℝ) := by exact_mod_cast riskMult_pos rt
  unfold objectiveNoTarget
  rw [mul_le_mul_right hc, neg_le_neg_iff]

/-- C9: the Sharpe ratio computed by `calculate_portfolio_stats` is
    `(annualized return - risk-free rate) / annualized volatility` whenever
    the annualized volatility is positive, and `0` when the volatility is
    `0`; the volatility is never negative, so the division is never taken
    with a zero divisor. -/
theorem sharpe_zero_divisor_guard (riskFreeRate : ℚ) (w : List ℚ)
    (returns : List (List ℚ)) :
    0 ≤ (calculatePortfolioStats riskFreeRate w returns).volatility ∧
    (0 < (calculatePortfolioStats riskFreeRate w returns).volatility →
      (calculatePortfolioStats riskFreeRate w returns).sharpeRatio =
        ((calculatePortfolioStats riskFreeRate w returns).ret - (riskFreeRate : ℝ)) /
          (calculatePortfolioStats riskFreeRate w returns).volatility) ∧
    ((calculatePortfolioStats riskFreeRate w returns).volatility = 0 →
      (calculatePortfolioStats riskFreeRate w returns).sharpeRatio = 0) := by
  have hvol : (calculatePortfolioStats riskFreeRate w returns).volatility =
      Real.sqrt ((portVarQ w returns : ℚ) : ℝ) := rfl
  have hret : (calculatePortfolioStats riskFreeRate w returns).ret =
      ((annualReturnQ w returns : ℚ) : ℝ) := rfl
  have hsh : (calculatePortfolioStats riskFreeRate w returns).sharpeRatio =
      if 0 < Real.sqrt ((portVarQ w returns : ℚ) : ℝ) then
        (((annualReturnQ w returns : ℚ) : ℝ) - (riskFreeRate : ℝ)) /
          Real.sqrt ((portVarQ w returns : ℚ) : ℝ)
      else 0 := rfl
  refine ⟨hvol ▸ Real.sqrt_nonneg _, ?_, ?_⟩
  · intro h
    rw [hvol] at h
    rw [hsh, hvol, hret, if_pos h]
  · intro h
    rw [hvol] at h
    rw [hsh, if_neg]
    rw [h]
    exact lt_irrefl 0

theorem portVarQ_example : portVarQ [1] [[0], [1]] = 126 := by
  norm_num [portVarQ, covEntry, colMean, entry, List.range_succ]

theorem sharpe_zero_divisor_guard_witness :
    0 < (calculatePortfolioStats (3 / 100) [1] [[0], [1]]).volatility ∧
    (calculatePortfolioStats (3 / 100) [1] [[0], [1]]).sharpeRatio =
      ((calculatePortfolioStats (3 / 100) [1] [[0], [1]]).ret - ((3 / 100 : ℚ) : ℝ)) /
        (calculatePortfolioStats (3 / 100) [1] [[0], [1]]).volatility := by
  have hv : 0 < (calculatePortfolioStats (3 / 100) [1] [[0], [1]]).volatility := by
    show 0 < Real.sqrt ((portVarQ [1] [[0], [1]] : ℚ) : ℝ)
    rw [portVarQ_example]
    exact Real.sqrt_pos.mpr (by norm_num)
  exact ⟨hv, (sharpe_zero_divisor_guard (3 / 100) [1] [[0], [1]]).2.1 hv⟩

/-- C10: with no target return the objective is `-(Sharpe) * risk_mult` with
    strictly positive multipliers (conservative `0.5`, moderate `1.0`,
    aggressive `1.5`, default `1.0`); a positive scalar factor does not
    change the minimizers, so the optimal weight sets of any two
    risk-tolerance categories coincide — the risk tolerance has no effect
    on the resulting allocation. -/
theorem risk_tolerance_no_effect (riskFreeRate : ℚ) (returns : List (List ℚ))
    (S : Set (List ℚ)) (w : List ℚ) (rt₁ rt₂ : String) :
    riskMult "conservative" = 1 / 2 ∧ riskMult "moderate" = 1 ∧
    riskMult "aggressive" = 3 / 2 ∧ 0 < riskMult rt₁ ∧
    (IsOptimal riskFreeRate rt₁ returns S w ↔ IsOptimal riskFreeRate rt₂ returns S w) := by
  refine ⟨rfl, rfl, rfl, riskMult_pos rt₁, ?_⟩
  unfold IsOptimal
  constructor
  · rintro ⟨hw, hmin⟩
    refine ⟨hw, fun w' hw' => ?_⟩
    rw [objectiveNoTarget_le_iff]
    exact (objectiveNoTarget_le_iff riskFreeRate rt₁ returns w w').mp (hmin w' hw')
  · rintro ⟨hw, hmin⟩
    refine ⟨hw, fun w' hw' => ?_⟩
    rw [objectiveNoTarget_le_iff]
    exact (objectiveNoTarget_le_iff riskFreeRate rt₂ returns w w').mp (hmin w' hw')

theorem pyDict_foldl_of_nodup :
    ∀ (pairs m : List (String × ℚ)),
      (m.map Prod.fst ++ pairs.map Prod.fst).Nodup →
      pairs.foldl (fun acc p => pyDictInsert acc p.1 p.2) m = m ++ pairs := by
  intro pairs
  induction pairs with
  | nil => intro m h; simp
  | cons p rest ih =>
    intro m h
    obtain ⟨k, v⟩ := p
    have hk : k ∉ m.map Prod.fst := by
      intro hmem
      exact (List.nodup_append.mp h).2.2 hmem (List.mem_cons_self _ _)
    have hins : pyDictInsert m k v = m ++ [(k, v)] := if_neg hk
    have hre : ((m ++ [(k, v)]).map Prod.fst ++ rest.map Prod.fst).Nodup := by
      rw [List.map_append, List.append_assoc]
      simpa using h
    calc ((k, v) :: rest).foldl (fun acc p => pyDictInsert acc p.1 p.2) m
        = rest.foldl (fun acc p => pyDictInsert acc p.1 p.2) (m ++ [(k, v)]) := by
          rw [List.foldl_cons, hins]
      _ = (m ++ [(k, v)]) ++ rest := ih (m ++ [(k, v)]) hre
      _ = m ++ ((k, v) :: rest) := by rw [List.append_assoc, List.singleton_append]

theorem pyDict_eq_of_nodup (pairs : List (String × ℚ))
    (h : (pairs.map Prod.fst).Nodup) : pyDict pairs = pairs := by
  have := pyDict_foldl_of_nodup pairs [] (by simpa using h)
  simpa [pyDict] using this

theorem sum_replicate_rat (n : ℕ) (c : ℚ) : (List.replicate n c).sum = n * c := by
  induction n with
  | zero => simp
  | succ k ih => rw [List.replicate_succ, List.sum_cons, ih]; push_cast; ring

theorem equalWeight_pairs_eq (symbols : List String) (c : ℚ)
    (h : symbols.Nodup) :
    pyDict (symbols.map (fun s => (s, c))) = symbols.map (fun s => (s, c)) := by
  apply pyDict_eq_of_nodup
  have hfst : (symbols.map (fun s => (s, c))).map Prod.fst = symbols := by
    rw [List.map_map]
    exact List.map_id' symbols
  rw [hfst]; exact h

theorem routeWitnessResponse_eq :
    optimizePortfolioRoute defaultRiskFreeRate ["AAA", "BBB"] "moderate" none []
      ⟨false, [], "solver off"⟩ "t0" = .ok routeWitnessResponse := by
  simp [optimizePortfolioRoute, optimizeM, routeWitnessResponse]

/-- C1: every response the optimize operation returns — the solver path,
    whose weights the code takes verbatim from the SLSQP result, and the
    equal-weight fallback path — has each per-symbol weight in `[0, 1]` and
    weights summing to 1 within `1e-6`.  The solver path inherits the bound
    from the SLSQP contract (on success the iterate respects the `(0, 1)`
    box bounds and the sum-to-one equality constraint within tolerance),
    stated here as a hypothesis; the request's symbols form a set
    (no duplicates), as the `OptimizationRequest` data model requires. -/
theorem optimization_result_weight_invariant (riskFreeRate : ℚ)
    (symbols : List String) (rt : String) (tgt : Option ℚ)
    (prices : List (List ℚ)) (solver : SolverResult) (now : String)
    (r : RouteResponse)
    (hnodup : symbols.Nodup)
    (hcontract : solver.success = true →
      solver.x.length = symbols.length ∧ (∀ v ∈ solver.x, 0 ≤ v ∧ v ≤ 1) ∧
      |solver.x.sum - 1| ≤ 1 / 1000000)
    (hok : optimizePortfolioRoute riskFreeRate symbols rt tgt prices solver now = .ok r) :
    (∀ p ∈ r.weights, 0 ≤ p.2 ∧ p.2 ≤ 1) ∧
    |(r.weights.map Prod.snd).sum - 1| ≤ 1 / 1000000 := by
  unfold optimizePortfolioRoute at hok
  by_cases hlt : symbols.length < 2
  · rw [if_pos hlt] at hok; exact absurd hok (by simp)
  · rw [if_neg hlt] at hok
    cases hopt : optimizeM riskFreeRate symbols rt tgt prices solver now with
    | ok res =>
      rw [hopt] at hok
      simp only [Except.ok.injEq] at hok
      unfold optimizeM at hopt
      by_cases hp : prices.isEmpty
      · rw [if_pos hp] at hopt; exact absurd hopt (by simp)
      · rw [if_neg hp] at hopt
        by_cases hs : solver.success
        · rw [if_pos hs] at hopt
          simp only [Except.ok.injEq] at hopt
          obtain ⟨hlen, hbounds, hsum⟩ := hcontract hs
          have hw : r.weights = symbols.zip solver.x := by
            rw [← hok, ← hopt]
            exact pyDict_eq_of_nodup _ (by
              rw [List.map_fst_zip symbols solver.x (le_of_eq hlen.symm)]
              exact hnodup)
          constructor
          · intro p hpmem
            rw [hw] at hpmem
            obtain ⟨a, b⟩ := p
            exact hbounds b (List.of_mem_zip hpmem).2
          · rw [hw, List.map_snd_zip symbols solver.x (le_of_eq hlen)]
            exact hsum
        · rw [if_neg hs] at hopt; exact absurd hopt (by simp)
    | error e =>
      rw [hopt] at hok
      have h2 : 2 ≤ symbols.length := Nat.not_lt.mp hlt
      simp only [if_pos h2, Except.ok.injEq] at hok
      have hn0 : (symbols.length : ℚ) ≠ 0 := by
        have : 0 < symbols.length := by omega
        exact_mod_cast Nat.pos_iff_ne_zero.mp this
      have hn2 : (2 : ℚ) ≤ (symbols.length : ℚ) := by exact_mod_cast h2
      have hw : r.weights = symbols.map (fun s => (s, 1 / (symbols.length : ℚ))) := by
        rw [← hok]
        exact equalWeight_pairs_eq symbols _ hnodup
      constructor
      · intro p hpmem
        rw [hw] at hpmem
        obtain ⟨s, hsmem, hps⟩ := List.mem_map.mp hpmem
        rw [← hps]
        constructor
        · positivity
        · rw [div_le_one (by linarith)]; linarith
      · rw [hw, List.map_map]
        have : (fun p : String × ℚ => p.2) ∘ (fun s => (s, 1 / (symbols.length : ℚ)))
            = fun _ => 1 / (symbols.length : ℚ) := rfl
        rw [show Prod.snd ∘ (fun s : String => (s, 1 / (symbols.length : ℚ)))
            = fun _ => 1 / (symbols.length : ℚ) from rfl]
        rw [List.map_const', sum_replicate_rat]
        rw [mul_one_div, div_self hn0]
        norm_num

/-- Witness for C1 on the fallback path: two distinct symbols, no price
    data, a failed solver — the returned response satisfies the weight
    invariant. -/
theorem optimization_result_weight_invariant_witness :
    (["AAA", "BBB"] : List String).Nodup ∧
    ((∀ p ∈ (routeWitnessResponse).weights, 0 ≤ p.2 ∧ p.2 ≤ 1) ∧
      |((routeWitnessResponse).weights.map Prod.snd).sum - 1| ≤ 1 / 1000000) := by
  refine ⟨by decide, ?_⟩
  exact optimization_result_weight_invariant defaultRiskFreeRate ["AAA", "BBB"] "moderate"
    none [] ⟨false, [], "solver off"⟩ "t0" routeWitnessResponse (by decide)
    (fun h => absurd h (by decide)) routeWitnessResponse_eq

/-- C2: when price data is available but the solver fails to converge, the
    route returns a successful response (not an error) carrying equal
    weights `1/n` for each of the `n` requested symbols, zeroed portfolio,
    asset and risk statistics, `fallback = true`, and a human-readable
    message wrapping the optimizer failure reason. -/
theorem solver_failure_equal_weight_fallback (riskFreeRate : ℚ)
    (symbols : List String) (rt : String) (tgt : Option ℚ)
    (prices : List (List ℚ)) (solver : SolverResult) (now : String)
    (hnodup : symbols.Nodup) (h2 : 2 ≤ symbols.length)
    (hp : prices.isEmpty = false) (hfail : solver.success = false) :
    optimizePortfolioRoute riskFreeRate symbols rt tgt prices solver now =
      .ok { symbols := symbols
            weights := symbols.map (fun s => (s, 1 / (symbols.length : ℚ)))
            portfolioStats := { ret := 0, volatility := 0, sharpeRatio := 0 }
            assetStats := symbols.map (fun s =>
              (s, { weight := 1 / (symbols.length : ℚ), expectedReturn := 0, volatility := 0 }))
            riskMetrics := { var95 := 0, maxDrawdown := 0, downsideDeviation := 0 }
            generatedAt := now
            fallback := true
            message := some ("Optimizer failed: " ++ ("Optimization failed: " ++ solver.message)
              ++ ". Returning equal-weight targets.") } := by
  unfold optimizePortfolioRoute optimizeM
  rw [if_neg (by omega : ¬ symbols.length < 2), hp]
  simp only [Bool.false_eq_true, if_false, hfail]
  rw [if_pos h2, equalWeight_pairs_eq symbols _ hnodup]

/-- Witness for C2: two symbols, nonempty prices, failed solver — the
    concrete fallback response comes back as a success. -/
theorem solver_failure_equal_weight_fallback_witness :
    (["AAA", "BBB"] : List String).Nodup ∧ 2 ≤ (["AAA", "BBB"] : List String).length ∧
    ([[1, 1], [2, 2]] : List (List ℚ)).isEmpty = false ∧
    (SolverResult.mk false [] "Iteration limit reached").success = false ∧
    optimizePortfolioRoute defaultRiskFreeRate ["AAA", "BBB"] "moderate" none
      [[1, 1], [2, 2]] ⟨false, [], "Iteration limit reached"⟩ "t1" =
      .ok { symbols := ["AAA", "BBB"]
            weights := (["AAA", "BBB"] : List String).map
              (fun s => (s, 1 / (((["AAA", "BBB"] : List String).length : ℕ) : ℚ)))
            portfolioStats := { ret := 0, volatility := 0, sharpeRatio := 0 }
            assetStats := (["AAA", "BBB"] : List String).map (fun s =>
              (s, { weight := 1 / (((["AAA", "BBB"] : List String).length : ℕ) : ℚ),
                    expectedReturn := 0, volatility := 0 }))
            riskMetrics := { var95 := 0, maxDrawdown := 0, downsideDeviation := 0 }
            generatedAt := "t1"
            fallback := true
            message := some ("Optimizer failed: "
              ++ ("Optimization failed: " ++ "Iteration limit reached")
              ++ ". Returning equal-weight targets.") } :=
  ⟨by decide, by decide, by decide, rfl,
    solver_failure_equal_weight_fallback defaultRiskFreeRate ["AAA", "BBB"] "moderate" none
      [[1, 1], [2, 2]] ⟨false, [], "Iteration limit reached"⟩ "t1"
      (by decide) (by decide) (by decide) rfl⟩

/-- Counterexample to C3 as stated: with no price data at all, the
    route-level optimize operation does not reject — it returns the very
    solver-failure fallback result (a success with `fallback = true` whose
    message wraps the data-unavailable text), at the concrete input
    symbols `["AAA", "BBB"]`, empty price frame. -/
theorem data_unavailable_conflated_counterexample :
    optimizePortfolioRoute defaultRiskFreeRate ["AAA", "BBB"] "moderate" none []
      ⟨true, [1 / 2, 1 / 2], "ok"⟩ "t0" =
      .ok { symbols := ["AAA", "BBB"]
            weights := pyDict ((["AAA", "BBB"] : List String).map
              (fun s => (s, 1 / (((["AAA", "BBB"] : List String).length : ℕ) : ℚ))))
            portfolioStats := { ret := 0, volatility := 0, sharpeRatio := 0 }
            assetStats := (["AAA", "BBB"] : List String).map (fun s =>
              (s, { weight := 1 / (((["AAA", "BBB"] : List String).length : ℕ) : ℚ),
                    expectedReturn := 0, volatility := 0 }))
            riskMetrics := { var95 := 0, maxDrawdown := 0, downsideDeviation := 0 }
            generatedAt := "t0"
            fallback := true
            message := some ("Optimizer failed: " ++ "Price data unavailable for symbols"
              ++ ". Returning equal-weight targets.") } := by
  simp [optimizePortfolioRoute, optimizeM]

/-- C3 amended: `PortfolioOptimizer.optimize` itself rejects with the
    distinct data-unavailable error before consulting the solver, and that
    error differs from the solver-failure error; the route-level operation,
    however, catches it like any optimizer exception and converts it into
    the equal-weight fallback success response instead of passing the
    distinct error through. -/
theorem data_unavailable_distinct_method_conflated_route (riskFreeRate : ℚ)
    (symbols : List String) (rt : String) (tgt : Option ℚ)
    (solver : SolverResult) (now : String) (h2 : 2 ≤ symbols.length) :
    optimizeM riskFreeRate symbols rt tgt [] solver now =
      .error "Price data unavailable for symbols" ∧
    "Price data unavailable for symbols" ≠
      "Optimization failed: " ++ "Singular matrix C in LSQ subproblem" ∧
    (∀ r, optimizePortfolioRoute riskFreeRate symbols rt tgt [] solver now = .ok r →
      r.fallback = true) ∧
    (optimizePortfolioRoute riskFreeRate symbols rt tgt [] solver now).isOk = true := by
  refine ⟨rfl, by decide, ?_, ?_⟩
  · intro r hr
    unfold optimizePortfolioRoute at hr
    rw [if_neg (by omega : ¬ symbols.length < 2)] at hr
    simp only [optimizeM, List.isEmpty_nil, if_true] at hr
    rw [if_pos h2] at hr
    simp only [Except.ok.injEq] at hr
    rw [← hr]
  · unfold optimizePortfolioRoute
    rw [if_neg (by omega : ¬ symbols.length < 2)]
    simp only [optimizeM, List.isEmpty_nil, if_true]
    rw [if_pos h2]
    rfl

/-- Witness for C3's amended statement at symbols `["AAA", "BBB"]`. -/
theorem data_unavailable_distinct_method_conflated_route_witness :
    2 ≤ (["AAA", "BBB"] : List String).length ∧
    (optimizeM defaultRiskFreeRate ["AAA", "BBB"] "moderate" none []
        ⟨false, [], "m"⟩ "t0" = .error "Price data unavailable for symbols" ∧
      "Price data unavailable for symbols" ≠
        "Optimization failed: " ++ "Singular matrix C in LSQ subproblem" ∧
      (∀ r, optimizePortfolioRoute defaultRiskFreeRate ["AAA", "BBB"] "moderate" none []
          ⟨false, [], "m"⟩ "t0" = .ok r → r.fallback = true) ∧
      (optimizePortfolioRoute defaultRiskFreeRate ["AAA", "BBB"] "moderate" none []
          ⟨false, [], "m"⟩ "t0").isOk = true) :=
  ⟨by decide,
    data_unavailable_distinct_method_conflated_route defaultRiskFreeRate ["AAA", "BBB"]
      "moderate" none ⟨false, [], "m"⟩ "t0" (by decide)⟩

/-- Counterexample to C4 as stated: a price frame with three rows gives a
    return matrix with two rows — far below 30 — yet the optimization is
    not rejected: with a successful solver outcome it returns a result,
    computing statistics over the undersized matrix. -/
theorem min_rows_not_enforced_counterexample :
    (calculateReturns [[1, 1], [2, 2], [3, 3]]).length < 30 ∧
    (optimizeM defaultRiskFreeRate ["AAA", "BBB"] "moderate" none
      [[1, 1], [2, 2], [3, 3]] ⟨true, [1 / 2, 1 / 2], ""⟩ "t0").isOk = true := by
  constructor
  · simp [calculateReturns]
  · simp [optimizeM, Except.isOk, Except.toBool]

/-- C4 amended: `optimize` rejects exactly when the fetched price frame is
    empty or the solver reports failure; no minimum row count is enforced
    on the return matrix, so a matrix with fewer than 30 rows is processed
    like any other. -/
theorem optimize_accepts_any_row_count (riskFreeRate : ℚ) (symbols : List String)
    (rt : String) (tgt : Option ℚ) (prices : List (List ℚ))
    (solver : SolverResult) (now : String) :
    (optimizeM riskFreeRate symbols rt tgt prices solver now).isOk =
      (!prices.isEmpty && solver.success) := by
  unfold optimizeM
  cases hp : prices.isEmpty <;> cases hs : solver.success <;>
    simp [Except.isOk, Except.toBool]

theorem frontierLoop_lengths (riskFreeRate : ℚ) (returns : List (List ℚ))
    (numAssets : ℕ) : ∀ (n : ℕ) (g : NpRandomState),
    (frontierLoop riskFreeRate returns numAssets n g).1.1.length = n ∧
    (frontierLoop riskFreeRate returns numAssets n g).1.2.1.length = n ∧
    (frontierLoop riskFreeRate returns numAssets n g).1.2.2.1.length = n ∧
    (frontierLoop riskFreeRate returns numAssets n g).1.2.2.2.length = n := by
  intro n
  induction n with
  | zero => intro g; simp [frontierLoop]
  | succ k ih =>
    intro g
    have h := ih (npRandomVec numAssets g).2
    simp [frontierLoop, h.1, h.2.1, h.2.2.1, h.2.2.2]

/-- C5: whenever the frontier operation returns samples (nonempty symbols,
    nonempty price data), the number of samples equals the clamped count,
    which lies in `[20, 500]` for every requested count; a request of 5
    yields 20 samples and a request of 10000 yields 500. -/
theorem frontier_sample_count_clamped (riskFreeRate : ℚ) (symbols : List String)
    (reqCount : Option ℤ) (prices : List (List ℚ)) (g : NpRandomState)
    (hsym : symbols.isEmpty = false) (hp : prices.isEmpty = false) :
    ∃ out, getEfficientFrontierRoute riskFreeRate symbols reqCount prices g = .ok out ∧
      out.returns.length = (min (max (pyOr100 reqCount) 20) 500).toNat ∧
      out.volatilities.length = out.returns.length ∧
      out.sharpeRatios.length = out.returns.length ∧
      out.weights.length = out.returns.length ∧
      20 ≤ out.returns.length ∧ out.returns.length ≤ 500 ∧
      (reqCount = some 5 → out.returns.length = 20) ∧
      (reqCount = some 10000 → out.returns.length = 500) := by
  have hlens := frontierLoop_lengths riskFreeRate (calculateReturns prices)
    symbols.length (min (max (pyOr100 reqCount) 20) 500).toNat (npSeed 42)
  have hfront : (efficientFrontierM riskFreeRate symbols prices
      (min (max (pyOr100 reqCount) 20) 500).toNat g).1 =
      .ok (frontierPayload riskFreeRate symbols prices
        (min (max (pyOr100 reqCount) 20) 500).toNat) := by
    unfold efficientFrontierM frontierPayload
    rw [hp]
    simp
  have hroute : getEfficientFrontierRoute riskFreeRate symbols reqCount prices g =
      .ok (frontierPayload riskFreeRate symbols prices
        (min (max (pyOr100 reqCount) 20) 500).toNat) := by
    unfold getEfficientFrontierRoute
    rw [hsym]
    simp only [Bool.false_eq_true, if_false, hfront]
  have h20 : (20 : ℤ) ≤ min (max (pyOr100 reqCount) 20) 500 :=
    le_min (le_max_right _ _) (by norm_num)
  have h500 : min (max (pyOr100 reqCount) 20) 500 ≤ 500 := min_le_right _ _
  refine ⟨_, hroute, hlens.1, ?_, ?_, ?_, ?_, ?_, ?_, ?_⟩
  · show (frontierLoop riskFreeRate (calculateReturns prices) symbols.length
        (min (max (pyOr100 reqCount) 20) 500).toNat (npSeed 42)).1.2.1.length =
      (frontierLoop riskFreeRate (calculateReturns prices) symbols.length
        (min (max (pyOr100 reqCount) 20) 500).toNat (npSeed 42)).1.1.length
    rw [hlens.2.1, hlens.1]
  · show (frontierLoop riskFreeRate (calculateReturns prices) symbols.length
        (min (max (pyOr100 reqCount) 20) 500).toNat (npSeed 42)).1.2.2.1.length =
      (frontierLoop riskFreeRate (calculateReturns prices) symbols.length
        (min (max (pyOr100 reqCount) 20) 500).toNat (npSeed 42)).1.1.length
    rw [hlens.2.2.1, hlens.1]
  · show (frontierLoop riskFreeRate (calculateReturns prices) symbols.length
        (min (max (pyOr100 reqCount) 20) 500).toNat (npSeed 42)).1.2.2.2.length =
      (frontierLoop riskFreeRate (calculateReturns prices) symbols.length
        (min (max (pyOr100 reqCount) 20) 500).toNat (npSeed 42)).1.1.length
    rw [hlens.2.2.2, hlens.1]
  · show 20 ≤ (frontierLoop riskFreeRate (calculateReturns prices) symbols.length
        (min (max (pyOr100 reqCount) 20) 500).toNat (npSeed 42)).1.1.length
    rw [hlens.1]
    omega
  · show (frontierLoop riskFreeRate (calculateReturns prices) symbols.length
        (min (max (pyOr100 reqCount) 20) 500).toNat (npSeed 42)).1.1.length ≤ 500
    rw [hlens.1]
    omega
  · intro hc
    subst hc
    show (frontierLoop riskFreeRate (calculateReturns prices) symbols.length
        (min (max (pyOr100 (some 5)) 20) 500).toNat (npSeed 42)).1.1.length = 20
    rw [hlens.1]
    decide
  · intro hc
    subst hc
    show (frontierLoop riskFreeRate (calculateReturns prices) symbols.length
        (min (max (pyOr100 (some 10000)) 20) 500).toNat (npSeed 42)).1.1.length = 500
    rw [hlens.1]
    decide

/-- Witness for C5: one symbol, a two-row price frame, a requested count
    of 5 — the route returns exactly 20 samples. -/
theorem frontier_sample_count_clamped_witness :
    ((["AAA"] : List String).isEmpty = false) ∧
    (([[1], [2]] : List (List ℚ)).isEmpty = false) ∧
    ∃ out, getEfficientFrontierRoute defaultRiskFreeRate ["AAA"] (some 5) [[1], [2]]
        ⟨7⟩ = .ok out ∧
      out.returns.length = (min (max (pyOr100 (some 5)) 20) 500).toNat ∧
      out.volatilities.length = out.returns.length ∧
      out.sharpeRatios.length = out.returns.length ∧
      out.weights.length = out.returns.length ∧
      20 ≤ out.returns.length ∧ out.returns.length ≤ 500 ∧
      (some (5 : ℤ) = some 5 → out.returns.length = 20) ∧
      (some (5 : ℤ) = some 10000 → out.returns.length = 500) :=
  ⟨rfl, rfl, frontier_sample_count_clamped defaultRiskFreeRate ["AAA"] (some 5)
    [[1], [2]] ⟨7⟩ rfl rfl⟩

theorem efficientFrontierM_fst_ignores_state (riskFreeRate : ℚ)
    (symbols : List String) (prices : List (List ℚ)) (numPortfolios : ℕ)
    (g g' : NpRandomState) :
    (efficientFrontierM riskFreeRate symbols prices numPortfolios g).1 =
      (efficientFrontierM riskFreeRate symbols prices numPortfolios g').1 := by
  unfold efficientFrontierM
  cases hp : prices.isEmpty <;> simp

/-- C6: frontier sampling is deterministic — running the sampler twice in a
    row (the global generator state left by the first call feeding the
    second) with the same symbols, the same count and the same price data
    produces the same returns, volatilities, Sharpe ratios and weight
    vectors, because the fixed seed 42 resets the generator on every call. -/
theorem frontier_sampling_deterministic (riskFreeRate : ℚ)
    (symbols : List String) (prices : List (List ℚ)) (numPortfolios : ℕ)
    (g : NpRandomState) :
    (efficientFrontierM riskFreeRate symbols prices numPortfolios
        ((efficientFrontierM riskFreeRate symbols prices numPortfolios g).2)).1 =
      (efficientFrontierM riskFreeRate symbols prices numPortfolios g).1 :=
  efficientFrontierM_fst_ignores_state riskFreeRate symbols prices numPortfolios _ g

theorem applyMask_length (m : ℕ → Bool) (v : String) :
    ∀ (l : List (Option String)) (i : ℕ), (applyMask m v l i).length = l.length := by
  intro l
  induction l with
  | nil => intro i; rfl
  | cons a as ih => intro i; simp [applyMask, ih]

theorem applyMask_getD (m : ℕ → Bool) (v : String) :
    ∀ (l : List (Option String)) (i j : ℕ), j < l.length →
      (applyMask m v l i).getD j none = if m (i + j) then some v else l.getD j none := by
  intro l
  induction l with
  | nil => intro i j h; simp at h
  | cons a as ih =>
    intro i j h
    cases j with
    | zero => simp [applyMask]
    | succ j' =>
      simp only [applyMask, List.getD_cons_succ]
      rw [ih (i + 1) j' (by simpa using h)]
      have : i + 1 + j' = i + (j' + 1) := by omega
      rw [this]

/-- C7: for every trading day whose forward 5-trading-day return is defined
    (positive close, shifted close inside the series), the label produced by
    `_labels_from_close` is `positive` when that forward return exceeds
    `+2%`, `negative` when it is below `-2%`, and `neutral` otherwise. -/
theorem sentiment_label_of_forward_return (close : List ℚ) (i : ℕ)
    (hdef : i + 5 < close.length) (hpos : 0 < close.getD i 0) :
    (labelsFromClose close).getD i none =
      some (if 2 / 100 < close.getD (i + 5) 0 / close.getD i 0 - 1 then "positive"
            else if close.getD (i + 5) 0 / close.getD i 0 - 1 < -(2 / 100) then "negative"
            else "neutral") := by
  have hi : i < close.length := by omega
  have hfwd : fwdReturn close 5 i = some (close.getD (i + 5) 0 / close.getD i 0 - 1) :=
    if_pos hdef
  set f : ℚ := close.getD (i + 5) 0 / close.getD i 0 - 1 with hf
  have hlen0 : (List.replicate close.length (none : Option String)).length = close.length := by
    simp
  have hlen1 : (applyMask (maskPositive close) "positive"
      (List.replicate close.length none) 0).length = close.length := by
    rw [applyMask_length, hlen0]
  have hlen2 : (applyMask (maskNegative close) "negative"
      (applyMask (maskPositive close) "positive" (List.replicate close.length none) 0) 0).length
      = close.length := by
    rw [applyMask_length, hlen1]
  unfold labelsFromClose
  rw [applyMask_getD _ _ _ 0 i (by rw [hlen2]; exact hi),
    applyMask_getD _ _ _ 0 i (by rw [hlen1]; exact hi),
    applyMask_getD _ _ _ 0 i (by rw [hlen0]; exact hi)]
  simp only [Nat.zero_add, maskNeutral, maskNegative, maskPositive, hfwd]
  by_cases h1 : 2 / 100 < f
  · have h2 : ¬ f < -(2 / 100) := by linarith
    have h3 : ¬ f ≤ 2 / 100 := by linarith
    simp [h1, h2, h3]
  · by_cases h2 : f < -(2 / 100)
    · have h3 : ¬ -(2 / 100) ≤ f := by linarith
      simp [h1, h2, h3]
    · have h3 : -(2 / 100) ≤ f := by linarith
      have h4 : f ≤ 2 / 100 := by linarith
      simp [h1, h2, h3, h4]

/-- Witness for C7 at a concrete close series: from day 0, the close moves
    from 100 to 103 over the next five trading days, a forward return of
    `+3% > +2%`, so day 0 is labelled `positive`. -/
theorem sentiment_label_of_forward_return_witness :
    (0 : ℕ) + 5 < ([100, 100, 100, 100, 100, 103, 104] : List ℚ).length ∧
    (0 : ℚ) < ([100, 100, 100, 100, 100, 103, 104] : List ℚ).getD 0 0 ∧
    (labelsFromClose [100, 100, 100, 100, 100, 103, 104]).getD 0 none = some "positive" := by
  refine ⟨by norm_num, by norm_num, ?_⟩
  have h := sentiment_label_of_forward_return [100, 100, 100, 100, 100, 103, 104] 0
    (by norm_num) (by norm_num)
  rw [h]
  norm_num

/-- Counterexample to C8 as stated: a re-train whose classifier fit raises
    after the scaler fit succeeded leaves the analyzer in a state different
    from the pre-call state — the scaler already carries the new
    parameters while the model, trained flag and metrics keep the old
    ones: a mixed, not fully-old, training state. -/
theorem train_failure_mixed_state_counterexample :
    (trainModel previouslyTrainedState true (.ok ⟨80, 20⟩) (.ok 2) (.ok ())
        (.error "fit failed") (.ok 0) [] "t1").1 = .error "fit failed" ∧
    (trainModel previouslyTrainedState true (.ok ⟨80, 20⟩) (.ok 2) (.ok ())
        (.error "fit failed") (.ok 0) [] "t1").2 ≠ previouslyTrainedState ∧
    (trainModel previouslyTrainedState true (.ok ⟨80, 20⟩) (.ok 2) (.ok ())
        (.error "fit failed") (.ok 0) [] "t1").2.scalerParams = some 2 ∧
    (trainModel previouslyTrainedState true (.ok ⟨80, 20⟩) (.ok 2) (.ok ())
        (.error "fit failed") (.ok 0) [] "t1").2.modelParams =
      previouslyTrainedState.modelParams ∧
    (trainModel previouslyTrainedState true (.ok ⟨80, 20⟩) (.ok 2) (.ok ())
        (.error "fit failed") (.ok 0) [] "t1").2.lastMetrics =
      previouslyTrainedState.lastMetrics := by
  refine ⟨rfl, ?_, rfl, rfl, rfl⟩
  intro h
  have := congrArg AnalyzerState.scalerParams h
  simp [trainModel, previouslyTrainedState] at this

/-- C8 amended: a `train_model` failure before the scaler fit (no usable
    training data, a failed split, or a scaler fit that raises during
    validation) leaves the analyzer state exactly unchanged, but a failure
    at any later step commits partial mutations: after a successful scaler
    fit the new scaler parameters are already installed while a failing
    test-transform or classifier fit leaves the old model parameters,
    trained flag and metrics, and a failing accuracy computation leaves the
    new scaler and model parameters and trained flag with the old metrics —
    re-training is not atomic on failure. -/
theorem train_failure_incomplete_commit (st : AnalyzerState) (split : SplitData)
    (sp mp : ℕ) (e : String) (splitO : Except String SplitData)
    (scalerO : Except String ℕ) (transO : Except String Unit)
    (fitO : Except String ℕ) (accO : Except String ℚ)
    (importance : List (String × ℚ)) (now : String) :
    (trainModel st false splitO scalerO transO fitO accO importance now).2 = st ∧
    (trainModel st true (.error e) scalerO transO fitO accO importance now).2 = st ∧
    (trainModel st true (.ok split) (.error e) transO fitO accO importance now).2 = st ∧
    (trainModel st true (.ok split) (.ok sp) (.error e) fitO accO importance now).2 =
      { st with scalerParams := some sp } ∧
    (trainModel st true (.ok split) (.ok sp) (.ok ()) (.error e) accO importance now).2 =
      { st with scalerParams := some sp } ∧
    (trainModel st true (.ok split) (.ok sp) (.ok ()) (.ok mp) (.error e) importance now).2 =
      { st with scalerParams := some sp, modelParams := some mp, isTrained := true } :=
  ⟨rfl, rfl, rfl, rfl, rfl, rfl⟩

end WeathWise
